import Mathlib

/-!
Verification of the tool-routing and execution orchestrator of the
P13-ContinuumAI backend (`app/orchestrator/gemini_router.py` and
`app/controllers/query.py`), via a shallow embedding in Lean 4.

The embedding models Python values that are built only from plain data
(mappings with string keys, lists, 2-tuples, strings, integers, booleans,
None) with the inductive type `Val`.  The two branches of the result
normalizer that are guarded by non-plain types (objects exposing a
`to_plotly_json` method, and pandas DataFrames) can never fire on a plain
value, so they collapse in the embedding; every analytics tool of the
repository (`app/utils/data_functions.py`) returns a plain dict, so the
execution engine is modelled over tools returning plain values.

External effects are parameters:
* `jp : String → Option Val` models `json.loads` (`none` = the parse raises);
* `fs : String → Option Val` models "the file exists, can be opened and
  json-parses to this value" for the file-path branch of the normalizer;
* the generative-model call of `classify` is modelled by its outcome
  `llmRaw : Except String String` (`error` = any exception in the provider
  call or text extraction);
* the dataframe loader of the facade is `loader : String → Filters →
  Except String Df` over an abstract frame type `Df`.

Recursion in the normalizer is general recursion in Python (a parsed JSON
string can contain further strings); it is embedded with an explicit fuel
parameter that decreases at every recursive call, and the theorems quantify
over the fuel.
-/

/-- A plain Python value: the data universe handled by the orchestrator.
`tuple2` covers 2-element tuples, the only tuple shape the normalizer
distinguishes (longer tuples fall through every branch, like `int`). -/
inductive Val where
  | none
  | bool (b : Bool)
  | int (n : Int)
  | str (s : String)
  | list (xs : List Val)
  | tuple2 (a b : Val)
  | dict (entries : List (String × Val))

/-- `type(v).__name__` for a plain value (used in the `py_type` debug field). -/
def pyTypeName : Val → String
  | .none => "NoneType"
  | .bool _ => "bool"
  | .int _ => "int"
  | .str _ => "str"
  | .list _ => "list"
  | .tuple2 _ _ => "tuple"
  | .dict _ => "dict"

/-- Dictionary lookup `es[k]` / `es.get(k)`: first entry with the key
(Python dicts have unique keys; on a duplicate-free list this is the
unique entry). -/
def vget (es : List (String × Val)) (k : String) : Option Val :=
  (es.find? (fun kv => kv.1 == k)).map (·.2)

/-- Python truthiness of a plain value. -/
def pyTruthy : Val → Bool
  | .none => false
  | .bool b => b
  | .int n => n != 0
  | .str s => !s.isEmpty
  | .list xs => !xs.isEmpty
  | .tuple2 _ _ => true
  | .dict es => !es.isEmpty

/-- `isinstance(v, dict) and "data" in v`: a canonical Chart Object test. -/
def isDataDict : Val → Bool
  | .dict es => (vget es "data").isSome
  | _ => false

/-! ## Tokenization (`_tokenize`) -/

/-- A character matched by the regex class `[a-z0-9]`. -/
def isTokenChar (c : Char) : Bool :=
  decide ((Char.ofNat 97 ≤ c ∧ c ≤ Char.ofNat 122) ∨ (Char.ofNat 48 ≤ c ∧ c ≤ Char.ofNat 57))

/-- Split a character list into the maximal runs of `[a-z0-9]` characters,
as `re.findall(r"[a-z0-9]+", s)` does; `acc` holds the current run reversed. -/
def tokenRuns : List Char → List Char → List String
  | acc, [] => if acc.isEmpty then [] else [String.mk acc.reverse]
  | acc, c :: rest =>
    if isTokenChar c then tokenRuns (c :: acc) rest
    else if acc.isEmpty then tokenRuns [] rest
    else String.mk acc.reverse :: tokenRuns [] rest

/-- `_tokenize(s)`: lowercase, then extract maximal `[a-z0-9]+` runs.
Lowercasing is per character, as Python `str.lower` behaves on ASCII. -/
def tokenize (s : String) : List String :=
  tokenRuns [] (s.data.map Char.toLower)

/-- `set(_tokenize(s))`. -/
def tokenSet (s : String) : Finset String :=
  (tokenize s).toFinset

/-! ## Relevance ranker (`Orchestrator.rank_tools`)

The tool index `_index` (token set per tool name, built by introspection in
`_build_index`) is a parameter: an association list in iteration order, each
tool name paired with its indexed token set. -/

/-- The score `rank_tools` assigns one tool: the size of the overlap between
the message tokens and the tool tokens (cast to float, modelled in `ℚ`),
plus the two half-point boosts. -/
def rankScore (mtoks ttoks : Finset String) : ℚ :=
  let base : ℚ := ((mtoks ∩ ttoks).card : ℚ)
  let base := if "by" ∈ mtoks ∧ ({"region", "regions"} : Finset String) ∩ ttoks ≠ ∅ then base + 1/2 else base
  if ({"trend", "monthly", "mo", "month"} : Finset String) ∩ mtoks ≠ ∅ ∧
      ({"trend", "month"} : Finset String) ∩ ttoks ≠ ∅ then base + 1/2 else base

/-- Insert one scored tool into an accumulator that is sorted by descending
score, after all entries of greater-or-equal score.  Folding this from the
left is a stable descending sort, which is exactly what
`sorted(scores, key=lambda x: x[1], reverse=True)` computes (a stable sort
is determined by the key order, so any stable implementation agrees). -/
def insertScored (x : String × ℚ) : List (String × ℚ) → List (String × ℚ)
  | [] => [x]
  | y :: ys => if y.2 < x.2 then x :: y :: ys else y :: insertScored x ys

/-- Stable descending sort by score. -/
def sortScoresDesc (l : List (String × ℚ)) : List (String × ℚ) :=
  l.foldl (fun acc x => insertScored x acc) []

/-- `Orchestrator.rank_tools(message)`.  The loop over `self._index.items()`
appending `(tname, score)` whenever `score > 0` is the `filterMap`; the
first loop of the source (over `self._tools.keys()`) only rebinds local
variables and has no effect, so it is not represented. -/
def rank_tools (index : List (String × Finset String)) (message : String) :
    List (String × ℚ) :=
  let mtoks := tokenSet message
  let scores := index.filterMap (fun e =>
    let score := rankScore mtoks e.2
    if 0 < score then some (e.1, score) else Option.none)
  sortScoresDesc scores

/-! ## Defensive JSON extraction (`Orchestrator._safe_json`) -/

/-- `_safe_json(text)`: strict parse; on failure, parse the substring from
the first `\x7b` to the last `\x7d` when that span is nonempty; on any
failure return the empty dict. -/
def safe_json (jp : String → Option Val) (text : String) : Val :=
  match jp text with
  | some v => v
  | Option.none =>
    let cs := text.data
    match cs.findIdx? (· == '\x7b') with
    | Option.none => .dict []
    | some s =>
      match cs.reverse.findIdx? (· == '\x7d') with
      | Option.none => .dict []
      | some r =>
        let e := cs.length - 1 - r
        if s < e then
          match jp (String.mk ((cs.drop s).take (e + 1 - s))) with
          | some v => v
          | Option.none => .dict []
        else .dict []

/-! ## Intent classifier (`Orchestrator.classify`) -/

/-- `Orchestrator.classify(message)`.  `geminiReady` is `self._gemini_ready`;
`llmRaw` is the outcome of building the prompt, calling the provider and
extracting the response text (`error` when any of that raises — the
`except` swallows it).  A parsed mapping is returned verbatim when its
`tool_names` entry is truthy; otherwise the ranker fallback plan is built. -/
def classify (index : List (String × Finset String)) (geminiReady : Bool)
    (llmRaw : Except String String) (jp : String → Option Val)
    (message : String) : Val :=
  let fallback :=
    let ranked := rank_tools index message
    if ranked.isEmpty then
      .dict [("response_type", .str "chart"), ("tool_names", .list []),
             ("tool_args", .dict [])]
    else
      let picks := (ranked.take 2).map (fun p => Val.str p.1)
      .dict [("response_type", .str "chart"), ("tool_names", .list picks),
             ("tool_args", .dict [])]
  if geminiReady then
    match llmRaw with
    | .error _ => fallback
    | .ok text =>
      let parsed := safe_json jp text
      match parsed with
      | .dict es => if pyTruthy ((vget es "tool_names").getD .none) then parsed else fallback
      | _ => fallback
  else fallback

/-! ## Result normalizer (`Orchestrator._to_plotly_json`)

Two branches of the source are guarded by non-plain types and collapse on
the plain-value universe: `hasattr(obj, "to_plotly_json")` (no plain value
has the chart-export method) and the trailing pandas-DataFrame table
fallback (`"pandas" in str(type(obj))` is false for every plain type).  All
other branches are represented in source order. -/

/-- Keep a normalization result only when it is a `data`-bearing mapping
(the repeated `isinstance(norm, dict) and "data" in norm` guard). -/
def chartOnly (o : Option Val) : Option Val :=
  o.bind (fun n => if isDataDict n then some n else Option.none)

/-- The `traces` branch: `{"data": obj["traces"], "layout": obj.get("layout", {})}`
when `obj["traces"]` is a list. -/
def tracesOf (es : List (String × Val)) : Option Val :=
  match vget es "traces" with
  | some (.list tr) =>
    some (.dict [("data", .list tr), ("layout", (vget es "layout").getD (.dict []))])
  | _ => Option.none

/-- The wrapper-key loop: for `figure`, `plot`, `payload`, `plotly` in turn,
if the key is present return the nested value when it is a `data`-bearing
mapping, or a JSON string parsing to one (the exporter-object check inside
the loop is vacuous on plain values); otherwise try the next key. -/
def wrapperHit (jp : String → Option Val) (es : List (String × Val)) : Option Val :=
  ["figure", "plot", "payload", "plotly"].findSome? (fun key =>
    match vget es key with
    | some (.dict ies) => if (vget ies "data").isSome then some (.dict ies) else Option.none
    | some (.str s) =>
      match jp s with
      | some (.dict ps) => if (vget ps "data").isSome then some (.dict ps) else Option.none
      | _ => Option.none
    | _ => Option.none)

/-- `obj.lower().endswith(".json")`. -/
def endsWithJson (s : String) : Bool :=
  ".json".data.isSuffixOf (s.data.map Char.toLower)

/-- `Orchestrator._to_plotly_json(obj)` over plain values.  The fuel
decreases at every recursive call and bounds the recursion depth, which in
Python is bounded because each `json.loads` result only contains strictly
shorter strings; every theorem below quantifies over the fuel. -/
def to_plotly_json (jp fs : String → Option Val) : Nat → Val → Option Val
  | 0, _ => Option.none
  | fuel + 1, obj =>
    match obj with
    | .dict es =>
      -- Pass-through figure dicts
      if (vget es "data").isSome then some obj
      else
        -- Common wrapper keys
        match wrapperHit jp es with
        | some r => some r
        | Option.none =>
          -- "results" list: first element normalizing to a chart dict
          match vget es "results" with
          | some (.list items) =>
            match items.findSome? (fun it => chartOnly (to_plotly_json jp fs fuel it)) with
            | some r => some r
            | Option.none => tracesOf es
          | _ => tracesOf es
    | .tuple2 a b =>
      -- Tuples of length 2
      match a, b with
      | .list xs, .dict bs => some (.dict [("data", .list xs), ("layout", .dict bs)])
      | .list xs, .none => some (.dict [("data", .list xs), ("layout", .dict [])])
      | _, _ =>
        match chartOnly (to_plotly_json jp fs fuel a) with
        | some r => some r
        | Option.none => chartOnly (to_plotly_json jp fs fuel b)
    | .list xs =>
      match xs with
      | [] => some (.dict [("data", .list []), ("layout", .dict [])])
      | x0 :: _ =>
        match x0 with
        | .dict es0 =>
          if (vget es0 "data").isSome then some x0
          else some (.dict [("data", .list xs), ("layout", .dict [])])
        | _ => xs.findSome? (fun it => chartOnly (to_plotly_json jp fs fuel it))
    | .str s =>
      -- JSON string or file path
      let fromLoads : Option Val :=
        match jp s with
        | some (.dict ps) =>
          if (vget ps "data").isSome then some (.dict ps)
          else if (vget ps "results").isSome then to_plotly_json jp fs fuel (.dict ps)
          else Option.none
        | _ => Option.none
      if endsWithJson s then
        match fs s with
        | some (.dict ps) => if (vget ps "data").isSome then some (.dict ps) else fromLoads
        | _ => fromLoads
      else fromLoads
    | _ => Option.none

example : to_plotly_json (fun _ => Option.none) (fun _ => Option.none) 1
    (.dict [("data", .list []), ("layout", .dict [])])
    = some (.dict [("data", .list []), ("layout", .dict [])]) := rfl

example : to_plotly_json (fun _ => Option.none) (fun _ => Option.none) 3
    (.tuple2 (.list [.int 1]) .none)
    = some (.dict [("data", .list [.int 1]), ("layout", .dict [])]) := rfl

/-! ## Execution engine (`Orchestrator.run_tools`)

A registered tool is its declared parameter-name list (`inspect.signature`)
plus its behaviour: a function of the dataframe and the keyword arguments
that are actually passed, returning a plain value or raising.  Failures of
`bind_partial`/`apply_defaults` happen inside the same `try` as the call
itself, so they are covered by the function's `error` outcome. -/

/-- A tool of the registry (`self._tools[name]`), over an abstract
dataframe type `Df`. -/
structure Tool (Df : Type) where
  params : List String
  fn : Df → List (String × Val) → Except String Val

/-- One entry of the `debug` list: `{"tool": ..., "error": ...}` with the
optional `"py_type"` field of the `unexpected_return_type` entry. -/
structure DebugEntry where
  tool : String
  error : String
  py_type : Option String

/-- The keyword arguments passed to a tool: start from `tool_args`, inject
`n = 10` and `k = 10` when declared and absent, then keep only keys the
signature declares. -/
def passedKwargs {Df : Type} (t : Tool Df) (tool_args : List (String × Val)) :
    List (String × Val) :=
  let kw1 := if "n" ∈ t.params ∧ (vget tool_args "n").isNone
             then tool_args ++ [("n", .int 10)] else tool_args
  let kw2 := if "k" ∈ t.params ∧ (vget kw1 "k").isNone
             then kw1 ++ [("k", .int 10)] else kw1
  kw2.filter (fun kv => kv.1 ∈ t.params)

/-- The body of the `for name in tool_names` loop of `run_tools`: the
contribution of one tool to `(results, debug)`. -/
def runOneTool {Df : Type} (tools : String → Option (Tool Df))
    (jp fs : String → Option Val) (fuel : Nat)
    (get_df : String → Except String Df) (tool_args : List (String × Val))
    (name : String) : List Val × List DebugEntry :=
  match tools name with
  | Option.none => ([], [⟨name, "not_found", Option.none⟩])
  | some t =>
    match get_df name with
    | .error e => ([], [⟨name, "dataframe_load_failed: " ++ e, Option.none⟩])
    | .ok df =>
      match t.fn df (passedKwargs t tool_args) with
      | .error e => ([], [⟨name, "exception: " ++ e, Option.none⟩])
      | .ok raw =>
        match to_plotly_json jp fs fuel raw with
        | some norm =>
          if isDataDict norm then ([norm], [])
          else
            match norm with
            | .list items =>
              (items.filterMap (fun f => chartOnly (to_plotly_json jp fs fuel f)), [])
            | _ => ([], [⟨name, "unexpected_return_type", some (pyTypeName raw)⟩])
        | Option.none => ([], [⟨name, "unexpected_return_type", some (pyTypeName raw)⟩])

/-- `Orchestrator.run_tools(tool_names, get_df, tool_args)`: run the tools
in order, appending each tool's results and debug entries.  The source
returns `(results, debug)` when `return_debug` is true and `results` alone
otherwise; the embedding returns the pair, of which the flag selects a
projection. -/
def run_tools {Df : Type} (tools : String → Option (Tool Df))
    (jp fs : String → Option Val) (fuel : Nat) (tool_names : List String)
    (get_df : String → Except String Df) (tool_args : List (String × Val)) :
    List Val × List DebugEntry :=
  tool_names.foldl (fun acc name =>
    let r := runOneTool tools jp fs fuel get_df tool_args name
    (acc.1 ++ r.1, acc.2 ++ r.2)) ([], [])

/-! ## Query orchestration facade (`app/controllers/query.py`)

HTTP wiring is out of scope; `run_query` is embedded as the function of the
request body (`message`, `filters`) and of the orchestrator/collaborator
parameters.  The static-mock fallback reads the file system through `glob`,
so that branch's would-be outcome is a parameter `mockResponse` (it is
`none` when `MOCK_PLOTLY_DIR` is unset or yields no parseable figure); the
branch's guard is embedded from the source. -/

/-- `ALLOWED_FILTERS` (also the set `allowed_filter_keys` inside
`run_query`, which holds the same five keys). -/
def ALLOWED_FILTERS : List String :=
  ["date_from", "date_to", "regions", "reps", "categories"]

/-- The example queries of `_guardrail_message`. -/
def guardrailExamples : List String :=
  ["Total revenue for 2025-01-01 to 2025-03-31",
   "Revenue by region for Q2 2025",
   "Top 10 products by revenue (2025)",
   "Monthly sales trend for West (H1 2025)",
   "Sales by representative (Jan–Mar 2025)"]

/-- The fixed user-facing guardrail hint of `_guardrail_message`. -/
def guardrail_text : String :=
  "This request doesn’t match the available analytics right now. \n" ++
  "Ask about descriptive BI on the demo dataset. \n" ++
  "You can filter with: " ++ String.intercalate ", " ALLOWED_FILTERS ++ ". \n" ++
  "Examples: " ++ String.intercalate "; " guardrailExamples

/-- A validated `PlotlyObject` response model: `data` is a required list,
`layout` defaults to the empty mapping, `config` is optional. -/
structure PlotlyObject where
  data : List Val
  layout : List (String × Val)
  config : Option (List (String × Val))

/-- `QuerySuccessResponse` / `QueryErrorResponse` (the `QueryResponse`
union): `status` is determined by the constructor. -/
inductive QueryResponse where
  | success (results : List PlotlyObject)
  | error (message : String)

/-- `QueryErrorResponse(message=hint)` built by `_guardrail_message()`. -/
def guardrail_message : QueryResponse := .error guardrail_text

/-- The generic no-results message (the ASCII apostrophe is written via its
code point). -/
def no_results_message : String :=
  let apos := String.singleton (Char.ofNat 39)
  "I" ++ apos ++ "m sorry, I couldn" ++ apos ++ "t find that data."

/-- `PlotlyObject(**result)`: pydantic validation of one result mapping.
`data` must be present and a list; `layout` must be a mapping when present,
else defaults to empty; `config` must be a mapping or `None` when present;
unknown keys are ignored.  The error strings stand in for pydantic's
messages (they are only ever wrapped into `"Error formatting results: ..."`). -/
def toPlotlyObject (v : Val) : Except String PlotlyObject :=
  match v with
  | .dict es =>
    match vget es "data" with
    | some (.list xs) =>
      (match vget es "layout" with
       | Option.none => .ok []
       | some (.dict ls) => .ok ls
       | some _ => .error "validation error for PlotlyObject: layout"
       : Except String (List (String × Val))).bind (fun lay =>
        match vget es "config" with
        | Option.none => .ok ⟨xs, lay, Option.none⟩
        | some .none => .ok ⟨xs, lay, Option.none⟩
        | some (.dict cs) => .ok ⟨xs, lay, some cs⟩
        | some _ => .error "validation error for PlotlyObject: config")
    | _ => .error "validation error for PlotlyObject: data"
  | _ => .error "PlotlyObject keyword arguments must be a mapping"

/-- `plan.get(key)` (`None` when absent or the plan is not a mapping). -/
def planGet (plan : Val) (k : String) : Val :=
  match plan with
  | .dict es => (vget es k).getD .none
  | _ => .none

/-- Python `v or default`. -/
def pyOr (v default : Val) : Val := if pyTruthy v then v else default

/-- `tool_names = plan.get("tool_names") or []` as a list of names.  The
classifier's own plans always hold a list of strings here; entries of any
other shape (possible only through the raw LLM pass-through) are outside
the model's scope and are skipped. -/
def plan_tool_names (plan : Val) : List String :=
  match pyOr (planGet plan "tool_names") (.list []) with
  | .list vs => vs.filterMap (fun v => match v with | .str s => some s | _ => Option.none)
  | _ => []

/-- `tool_args = plan.get("tool_args") or {}` as a mapping.  A truthy
non-mapping here (possible only through the raw LLM pass-through) would
raise at `.items()` in Python and is outside the model's scope. -/
def plan_tool_args (plan : Val) : List (String × Val) :=
  match pyOr (planGet plan "tool_args") (.dict []) with
  | .dict es => es
  | _ => []

/-- `derived_filters`: the plan's `tool_args` restricted to the allowed
filter keys. -/
def derive_filters (tool_args : List (String × Val)) : List (String × Val) :=
  tool_args.filter (fun kv => kv.1 ∈ ALLOWED_FILTERS)

/-- Python `{**a, **b}` on mappings: the keys of `a` in order, with values
overridden by `b` where both have the key, then the keys of `b` that are
not in `a`, in order. -/
def dictMerge (a b : List (String × Val)) : List (String × Val) :=
  a.map (fun kv => (kv.1, (vget b kv.1).getD kv.2)) ++
  b.filter (fun kv => (vget a kv.1).isNone)

/-- The classification and execution part of `run_query`: the plan, the
merged filters, the `_get_df` closure (whose raised `HTTPException` carries
`"500: Data load failed: ..."` as its text) and the
`run_tools(..., return_debug=True)` call, yielding `(results, debug)`. -/
def run_query_exec {Df : Type} (tools : String → Option (Tool Df))
    (index : List (String × Finset String)) (geminiReady : Bool)
    (llmRaw : Except String String) (jp fs : String → Option Val) (fuel : Nat)
    (loader : String → List (String × Val) → Except String Df)
    (message : String) (filters : Option (List (String × Val))) :
    List Val × List DebugEntry :=
  let plan := classify index geminiReady llmRaw jp message
  let tool_names := plan_tool_names plan
  let tool_args := plan_tool_args plan
  let final_filters := dictMerge (derive_filters tool_args) (filters.getD [])
  let get_df : String → Except String Df := fun tool_name =>
    match loader tool_name final_filters with
    | .ok df => .ok df
    | .error e => .error ("500: Data load failed: " ++ e)
  run_tools tools jp fs fuel tool_names get_df tool_args

/-- `run_query(req)`: classify, execute, then 2) guardrail on an empty
result batch, 3) the optional mock branch (its guard re-checks
`not results`), the generic no-results error, and the conversion of results
to `PlotlyObject`s with its `except` wrapper. -/
def run_query {Df : Type} (tools : String → Option (Tool Df))
    (index : List (String × Finset String)) (geminiReady : Bool)
    (llmRaw : Except String String) (jp fs : String → Option Val) (fuel : Nat)
    (loader : String → List (String × Val) → Except String Df)
    (mockResponse : Option QueryResponse)
    (message : String) (filters : Option (List (String × Val))) : QueryResponse :=
  let results :=
    (run_query_exec tools index geminiReady llmRaw jp fs fuel loader message filters).1
  if results.isEmpty then guardrail_message
  else
    match (if results.isEmpty then mockResponse else Option.none) with
    | some r => r
    | Option.none =>
      if results.isEmpty then .error no_results_message
      else
        match results.mapM toPlotlyObject with
        | .ok objs => .success objs
        | .error e => .error ("Error formatting results: " ++ e)

/-! ## Helper lemmas -/

theorem findSome?_pred {α β : Type _} {f : α → Option β} {P : β → Prop}
    (h : ∀ a b, f a = some b → P b) :
    ∀ {xs : List α} {r : β}, xs.findSome? f = some r → P r := by
  intro xs
  induction xs with
  | nil => intro r hr; simp [List.findSome?] at hr
  | cons x xs ih =>
    intro r hr
    rw [List.findSome?_cons] at hr
    cases hfx : f x with
    | none => rw [hfx] at hr; exact ih hr
    | some b =>
      rw [hfx] at hr
      injection hr with hbr
      subst hbr
      exact h x b hfx

theorem chartOnly_isDataDict {o : Option Val} {r : Val}
    (h : chartOnly o = some r) : isDataDict r = true := by
  cases o with
  | none => simp [chartOnly] at h
  | some n =>
    have h' : (if isDataDict n = true then some n else Option.none) = some r := h
    split at h'
    · injection h' with he; subst he; assumption
    · exact Option.noConfusion h'

theorem wrapperHit_isDataDict {jp : String → Option Val}
    {es : List (String × Val)} {r : Val}
    (h : wrapperHit jp es = some r) : isDataDict r = true := by
  refine findSome?_pred (P := fun x => isDataDict x = true) (fun key b hb => ?_) h
  split at hb
  · split at hb
    · injection hb with he; subst he; simp only [isDataDict]; assumption
    · exact Option.noConfusion hb
  · split at hb
    · split at hb
      · injection hb with he; subst he; simp only [isDataDict]; assumption
      · exact Option.noConfusion hb
    · exact Option.noConfusion hb
  · exact Option.noConfusion hb

theorem tracesOf_isDataDict {es : List (String × Val)} {r : Val}
    (h : tracesOf es = some r) : isDataDict r = true := by
  unfold tracesOf at h
  split at h
  · injection h with he; subst he; simp [isDataDict, vget, List.find?]
  · exact Option.noConfusion h

theorem to_plotly_json_isDataDict (jp fs : String → Option Val) :
    ∀ (fuel : Nat) (v r : Val),
      to_plotly_json jp fs fuel v = some r → isDataDict r = true := by
  intro fuel
  induction fuel with
  | zero => intro v r h; exact Option.noConfusion h
  | succ n ih =>
    intro v r h
    cases v with
    | none => exact Option.noConfusion h
    | bool b => exact Option.noConfusion h
    | int m => exact Option.noConfusion h
    | dict es =>
      simp only [to_plotly_json] at h
      split at h
      next hdata =>
        injection h with he; subst he; simpa [isDataDict] using hdata
      next hdata =>
        split at h
        next w hw => injection h with he; subst he; exact wrapperHit_isDataDict hw
        next hw =>
          split at h
          next items hres =>
            split at h
            next w hw2 =>
              injection h with he; subst he
              exact findSome?_pred (P := fun x => isDataDict x = true)
                (fun a b hab => chartOnly_isDataDict hab) hw2
            next hw2 => exact tracesOf_isDataDict h
          next hres => exact tracesOf_isDataDict h
    | tuple2 a b =>
      simp only [to_plotly_json] at h
      split at h
      next xs bs => injection h with he; subst he; simp [isDataDict, vget, List.find?]
      next xs => injection h with he; subst he; simp [isDataDict, vget, List.find?]
      next h1 h2 =>
        split at h
        next w hw => injection h with he; subst he; exact chartOnly_isDataDict hw
        next hw => exact chartOnly_isDataDict h
    | list xs =>
      simp only [to_plotly_json] at h
      split at h
      next => injection h with he; subst he; simp [isDataDict, vget, List.find?]
      next x0 rest =>
        split at h
        next es0 =>
          split at h
          next hdata => injection h with he; subst he; simpa [isDataDict] using hdata
          next hdata => injection h with he; subst he; simp [isDataDict, vget, List.find?]
        next hnot =>
          exact findSome?_pred (P := fun x => isDataDict x = true)
            (fun a b hab => chartOnly_isDataDict hab) h
    | str s =>
      simp only [to_plotly_json] at h
      split at h
      next hjson =>
        split at h
        next ps hfs =>
          split at h
          next hdata => injection h with he; subst he; simpa [isDataDict] using hdata
          next hdata =>
            split at h
            next ps2 hjp =>
              split at h
              next hd2 => injection h with he; subst he; simpa [isDataDict] using hd2
              next hd2 =>
                split at h
                next hres => exact ih _ _ h
                next hres => exact Option.noConfusion h
            next hjp => exact Option.noConfusion h
        next hfs =>
          split at h
          next ps2 hjp =>
            split at h
            next hd2 => injection h with he; subst he; simpa [isDataDict] using hd2
            next hd2 =>
              split at h
              next hres => exact ih _ _ h
              next hres => exact Option.noConfusion h
          next hjp => exact Option.noConfusion h
      next hjson =>
        split at h
        next ps2 hjp =>
          split at h
          next hd2 => injection h with he; subst he; simpa [isDataDict] using hd2
          next hd2 =>
            split at h
            next hres => exact ih _ _ h
            next hres => exact Option.noConfusion h
        next hjp => exact Option.noConfusion h

theorem foldl_pair_append (g : String → List Val × List DebugEntry) :
    ∀ (names : List String) (acc : List Val × List DebugEntry),
      names.foldl (fun acc name =>
          let r := g name
          (acc.1 ++ r.1, acc.2 ++ r.2)) acc
        = (acc.1 ++ names.flatMap (fun n => (g n).1),
           acc.2 ++ names.flatMap (fun n => (g n).2)) := by
  intro names
  induction names with
  | nil => intro acc; simp
  | cons x xs ih =>
    intro acc
    simp only [List.foldl_cons, List.flatMap_cons]
    rw [ih]
    simp [List.append_assoc]

theorem run_tools_eq_flatMap {Df : Type} (tools : String → Option (Tool Df))
    (jp fs : String → Option Val) (fuel : Nat) (names : List String)
    (gdf : String → Except String Df) (targs : List (String × Val)) :
    run_tools tools jp fs fuel names gdf targs
      = (names.flatMap (fun n => (runOneTool tools jp fs fuel gdf targs n).1),
         names.flatMap (fun n => (runOneTool tools jp fs fuel gdf targs n).2)) := by
  unfold run_tools
  rw [foldl_pair_append (runOneTool tools jp fs fuel gdf targs) names ([], [])]
  simp

theorem runOneTool_split {Df : Type} (tools : String → Option (Tool Df))
    (jp fs : String → Option Val) (fuel : Nat)
    (gdf : String → Except String Df) (targs : List (String × Val))
    (name : String) :
    ((runOneTool tools jp fs fuel gdf targs name).1 ≠ [] ∧
     (∀ c ∈ (runOneTool tools jp fs fuel gdf targs name).1, isDataDict c = true) ∧
     (runOneTool tools jp fs fuel gdf targs name).2 = []) ∨
    ((runOneTool tools jp fs fuel gdf targs name).1 = [] ∧
     ∃ d, (runOneTool tools jp fs fuel gdf targs name).2 = [d]) := by
  cases htool : tools name with
  | none => right; simp [runOneTool, htool]
  | some t =>
    cases hg : gdf name with
    | error e => right; simp [runOneTool, htool, hg]
    | ok df =>
      cases hfn : t.fn df (passedKwargs t targs) with
      | error e => right; simp [runOneTool, htool, hg, hfn]
      | ok raw =>
        cases hn : to_plotly_json jp fs fuel raw with
        | none => right; simp [runOneTool, htool, hg, hfn, hn]
        | some norm =>
          have hd := to_plotly_json_isDataDict jp fs fuel raw norm hn
          left
          simp [runOneTool, htool, hg, hfn, hn, hd]

theorem runOneTool_not_found {Df : Type} {tools : String → Option (Tool Df)}
    (jp fs : String → Option Val) (fuel : Nat)
    (gdf : String → Except String Df) (targs : List (String × Val))
    {name : String} (h : tools name = Option.none) :
    runOneTool tools jp fs fuel gdf targs name
      = ([], [⟨name, "not_found", Option.none⟩]) := by
  simp [runOneTool, h]

theorem insertScored_perm (x : String × ℚ) (l : List (String × ℚ)) :
    (insertScored x l).Perm (x :: l) := by
  induction l with
  | nil => simp [insertScored]
  | cons y ys ih =>
    simp only [insertScored]
    split
    · exact List.Perm.refl _
    · exact (ih.cons y).trans (List.Perm.swap x y ys)

theorem sortAux_perm : ∀ (l acc : List (String × ℚ)),
    (l.foldl (fun acc x => insertScored x acc) acc).Perm (acc ++ l) := by
  intro l
  induction l with
  | nil => intro acc; simp
  | cons x xs ih =>
    intro acc
    simp only [List.foldl_cons]
    refine (ih (insertScored x acc)).trans ?_
    refine (List.Perm.append_right xs (insertScored_perm x acc)).trans ?_
    exact List.perm_middle.symm

theorem sortScoresDesc_perm (l : List (String × ℚ)) :
    (sortScoresDesc l).Perm l := by
  simpa using sortAux_perm l []

theorem insertScored_pairwise {x : String × ℚ} {l : List (String × ℚ)}
    (h : l.Pairwise (fun a b => b.2 ≤ a.2)) :
    (insertScored x l).Pairwise (fun a b => b.2 ≤ a.2) := by
  induction l with
  | nil => simp [insertScored]
  | cons y ys ih =>
    rcases List.pairwise_cons.mp h with ⟨hy, hys⟩
    simp only [insertScored]
    split
    next hlt =>
      refine List.pairwise_cons.mpr ⟨?_, h⟩
      intro b hb
      rcases List.mem_cons.mp hb with rfl | hb2
      · exact le_of_lt hlt
      · exact le_trans (hy b hb2) (le_of_lt hlt)
    next hnlt =>
      refine List.pairwise_cons.mpr ⟨?_, ih hys⟩
      intro b hb
      rcases List.mem_cons.mp ((insertScored_perm x ys).mem_iff.mp hb) with rfl | hb2
      · exact not_lt.mp hnlt
      · exact hy b hb2

theorem sortAux_pairwise : ∀ (l acc : List (String × ℚ)),
    acc.Pairwise (fun a b => b.2 ≤ a.2) →
    (l.foldl (fun acc x => insertScored x acc) acc).Pairwise (fun a b => b.2 ≤ a.2) := by
  intro l
  induction l with
  | nil => intro acc h; simpa using h
  | cons x xs ih => intro acc h; exact ih _ (insertScored_pairwise h)

theorem sortScoresDesc_pairwise (l : List (String × ℚ)) :
    (sortScoresDesc l).Pairwise (fun a b => b.2 ≤ a.2) :=
  sortAux_pairwise l [] (by simp)

theorem rankScore_eq (m t : Finset String) :
    rankScore m t = ((m ∩ t).card : ℚ)
      + (if "by" ∈ m ∧ ({"region", "regions"} : Finset String) ∩ t ≠ ∅ then 1/2 else 0)
      + (if ({"trend", "monthly", "mo", "month"} : Finset String) ∩ m ≠ ∅ ∧
             ({"trend", "month"} : Finset String) ∩ t ≠ ∅ then 1/2 else 0) := by
  by_cases h1 : "by" ∈ m ∧ ({"region", "regions"} : Finset String) ∩ t ≠ ∅ <;>
  by_cases h2 : ({"trend", "monthly", "mo", "month"} : Finset String) ∩ m ≠ ∅ ∧
      ({"trend", "month"} : Finset String) ∩ t ≠ ∅ <;>
  simp [rankScore, h1, h2]

theorem vget_append (a b : List (String × Val)) (k : String) :
    vget (a ++ b) k = (vget a k).or (vget b k) := by
  unfold vget
  rw [List.find?_append]
  cases List.find? (fun kv => kv.1 == k) a <;> simp

theorem vget_map_override (a b : List (String × Val)) (k : String) :
    vget (a.map (fun kv => (kv.1, (vget b kv.1).getD kv.2))) k
      = (vget a k).map (fun v => (vget b k).getD v) := by
  induction a with
  | nil => simp [vget]
  | cons kv a ih =>
    rcases kv with ⟨k1, v1⟩
    by_cases hk : (k1 == k) = true
    · have he : k1 = k := by simpa using hk
      subst he
      simp [vget, List.find?_cons_of_pos]
      cases List.find? (fun kv => kv.1 == k1) b <;> simp
    · simp only [List.map_cons]
      unfold vget
      rw [List.find?_cons_of_neg _ (by simpa using hk),
          List.find?_cons_of_neg _ (by simpa using hk)]
      exact ih

theorem vget_filter_pos (p : String → Bool) (b : List (String × Val)) (k : String)
    (hp : p k = true) :
    vget (b.filter (fun kv => p kv.1)) k = vget b k := by
  induction b with
  | nil => rfl
  | cons kv b ih =>
    rcases kv with ⟨k1, v1⟩
    by_cases hk : (k1 == k) = true
    · have he : k1 = k := by simpa using hk
      subst he
      simp [List.filter_cons, hp, vget, List.find?_cons_of_pos]
    · cases hpk : p k1 with
      | true =>
        simp only [List.filter_cons, hpk, if_true]
        unfold vget
        rw [List.find?_cons_of_neg _ (by simpa using hk),
            List.find?_cons_of_neg _ (by simpa using hk)]
        exact ih
      | false =>
        simp only [List.filter_cons, hpk]
        unfold vget
        rw [List.find?_cons_of_neg _ (by simpa using hk)]
        exact ih

theorem vget_filter_neg (p : String → Bool) (b : List (String × Val)) (k : String)
    (hp : p k = false) :
    vget (b.filter (fun kv => p kv.1)) k = Option.none := by
  induction b with
  | nil => rfl
  | cons kv b ih =>
    rcases kv with ⟨k1, v1⟩
    cases hpk : p k1 with
    | false => simpa [List.filter_cons, hpk] using ih
    | true =>
      have hk : (k1 == k) = false := by
        by_contra hc
        have he : k1 = k := by simpa using (eq_true_of_ne_false hc)
        rw [he, hp] at hpk
        exact Bool.noConfusion hpk
      simp only [List.filter_cons, hpk, if_true]
      unfold vget
      rw [List.find?_cons_of_neg _ (by simpa using hk)]
      exact ih

theorem vget_dictMerge (a b : List (String × Val)) (k : String) :
    vget (dictMerge a b) k = (vget b k).or (vget a k) := by
  unfold dictMerge
  rw [vget_append, vget_map_override]
  cases ha : vget a k with
  | none =>
    rw [vget_filter_pos (fun s => (vget a s).isNone) b k (by simp [ha])]
    simp
  | some v =>
    cases hb : vget b k <;> simp [hb]

theorem vget_derive_filters (ta : List (String × Val)) (k : String) :
    vget (derive_filters ta) k
      = if k ∈ ALLOWED_FILTERS then vget ta k else Option.none := by
  unfold derive_filters
  by_cases hk : k ∈ ALLOWED_FILTERS
  · rw [if_pos hk,
        vget_filter_pos (fun s => decide (s ∈ ALLOWED_FILTERS)) ta k (by simpa using hk)]
  · rw [if_neg hk,
        vget_filter_neg (fun s => decide (s ∈ ALLOWED_FILTERS)) ta k (by simpa using hk)]

theorem error_prefix_ne_generic (e : String) :
    "Error formatting results: " ++ e ≠ no_results_message := by
  intro h
  have h2 : ("Error formatting results: " ++ e).data.head? = no_results_message.data.head? := by
    rw [h]
  rw [String.data_append, List.head?_append] at h2
  have h3 : "Error formatting results: ".data.head? = some 'E' := by decide
  have h4 : no_results_message.data.head? = some 'I' := by decide
  rw [h3, h4] at h2
  simp at h2

/-! ## Witness fixtures: concrete instantiations of the parameters -/

/-- A `json.loads` oracle that always fails. -/
def jp0 : String → Option Val := fun _ => Option.none

/-- A file system with no readable JSON files. -/
def fs0 : String → Option Val := fun _ => Option.none

/-- A parameterless tool returning Python `None`. -/
def unitTool : Tool Unit := ⟨[], fun _ _ => .ok Val.none⟩

/-- An empty registry. -/
def toolsNone : String → Option (Tool Unit) := fun _ => Option.none

/-- A registry resolving every name to `unitTool`. -/
def tools0 : String → Option (Tool Unit) := fun _ => some unitTool

/-- A data provider that always succeeds. -/
def gdf0 : String → Except String Unit := fun _ => .ok ()

/-- A data provider that always raises. -/
def gdfErr : String → Except String Unit := fun _ => .error "boom"

/-- A parameterless tool that always raises. -/
def toolErr : Tool Unit := ⟨[], fun _ _ => .error "bad"⟩

/-- A registry resolving every name to `toolErr`. -/
def toolsErr : String → Option (Tool Unit) := fun _ => some toolErr

/-- A dataframe loader that always succeeds. -/
def loader0 : String → List (String × Val) → Except String Unit := fun _ _ => .ok ()

/-! ## Claim theorems -/

/-- C8: a mapping that already contains a top-level `data` key is returned
unchanged by the Result Normalizer (identity pass-through), and
consequently `normalize` is idempotent on valid Chart Objects: whenever
`normalize x` is a `data`-bearing mapping, normalizing it again returns the
same object unchanged (at any positive fuel). -/
theorem C8_passthrough_and_idempotent :
    (∀ (jp fs : String → Option Val) (fuel : Nat) (es : List (String × Val)),
        (vget es "data").isSome = true →
        to_plotly_json jp fs (fuel + 1) (.dict es) = some (.dict es)) ∧
    (∀ (jp fs : String → Option Val) (fuel fuel' : Nat) (x y : Val),
        to_plotly_json jp fs fuel x = some y → isDataDict y = true →
        to_plotly_json jp fs (fuel' + 1) y = some y) := by
  constructor
  · intro jp fs fuel es h
    simp [to_plotly_json, h]
  · intro jp fs fuel fuel' x y hx hy
    cases y with
    | dict es =>
      have h : (vget es "data").isSome = true := by simpa [isDataDict] using hy
      simp [to_plotly_json, h]
    | none => simp [isDataDict] at hy
    | bool b => simp [isDataDict] at hy
    | int n => simp [isDataDict] at hy
    | str s => simp [isDataDict] at hy
    | list xs => simp [isDataDict] at hy
    | tuple2 a b => simp [isDataDict] at hy

theorem C8_witness :
    ((vget [("data", Val.list [])] "data").isSome = true ∧
      to_plotly_json jp0 fs0 1 (.dict [("data", Val.list [])])
        = some (.dict [("data", Val.list [])])) ∧
    (to_plotly_json jp0 fs0 1 (.tuple2 (.list []) .none)
        = some (.dict [("data", .list []), ("layout", .dict [])]) ∧
      isDataDict (.dict [("data", .list []), ("layout", .dict [])]) = true ∧
      to_plotly_json jp0 fs0 1 (.dict [("data", .list []), ("layout", .dict [])])
        = some (.dict [("data", .list []), ("layout", .dict [])])) :=
  ⟨⟨rfl, C8_passthrough_and_idempotent.1 jp0 fs0 0 [("data", Val.list [])] rfl⟩,
   ⟨rfl, rfl,
    C8_passthrough_and_idempotent.2 jp0 fs0 1 0 (.tuple2 (.list []) .none)
      (.dict [("data", .list []), ("layout", .dict [])]) rfl rfl⟩⟩

/-- C10: on every plain input (no chart-export object, no tabular frame),
the Result Normalizer returns `None` or a mapping containing a `data` key —
never a list, a non-mapping, or a mapping lacking `data`. -/
theorem C10_normalize_none_or_chart (jp fs : String → Option Val)
    (fuel : Nat) (v r : Val) (h : to_plotly_json jp fs fuel v = some r) :
    ∃ es, r = Val.dict es ∧ (vget es "data").isSome = true := by
  have hd := to_plotly_json_isDataDict jp fs fuel v r h
  cases r with
  | dict es => exact ⟨es, rfl, by simpa [isDataDict] using hd⟩
  | none => simp [isDataDict] at hd
  | bool b => simp [isDataDict] at hd
  | int n => simp [isDataDict] at hd
  | str s => simp [isDataDict] at hd
  | list xs => simp [isDataDict] at hd
  | tuple2 a b => simp [isDataDict] at hd

theorem C10_witness :
    to_plotly_json jp0 fs0 1 (.list [])
        = some (.dict [("data", .list []), ("layout", .dict [])]) ∧
    ∃ es, Val.dict [("data", .list []), ("layout", .dict [])] = Val.dict es ∧
      (vget es "data").isSome = true :=
  ⟨rfl, C10_normalize_none_or_chart jp0 fs0 1 (.list [])
    (.dict [("data", .list []), ("layout", .dict [])]) rfl⟩

/-- C1: in every `run_tools` batch, the output is the in-order concatenation
of the per-tool contributions, and each named tool either contributes one
or more Chart Objects (`data`-bearing mappings) and no debug entry, or no
result and exactly one Debug Entry — never both, never neither; in
particular a tool whose raw return normalizes to nothing yields the
`unexpected_return_type` Debug Entry carrying the Python type name. -/
theorem C1_each_tool_chart_xor_debug {Df : Type} (tools : String → Option (Tool Df))
    (jp fs : String → Option Val) (fuel : Nat) (names : List String)
    (gdf : String → Except String Df) (targs : List (String × Val)) :
    (run_tools tools jp fs fuel names gdf targs
      = (names.flatMap (fun n => (runOneTool tools jp fs fuel gdf targs n).1),
         names.flatMap (fun n => (runOneTool tools jp fs fuel gdf targs n).2))) ∧
    (∀ name : String,
      ((runOneTool tools jp fs fuel gdf targs name).1 ≠ [] ∧
       (∀ c ∈ (runOneTool tools jp fs fuel gdf targs name).1, isDataDict c = true) ∧
       (runOneTool tools jp fs fuel gdf targs name).2 = []) ∨
      ((runOneTool tools jp fs fuel gdf targs name).1 = [] ∧
       ∃ d, (runOneTool tools jp fs fuel gdf targs name).2 = [d])) ∧
    (∀ (name : String) (t : Tool Df) (df : Df) (raw : Val),
      tools name = some t → gdf name = .ok df →
      t.fn df (passedKwargs t targs) = .ok raw →
      to_plotly_json jp fs fuel raw = Option.none →
      runOneTool tools jp fs fuel gdf targs name
        = ([], [⟨name, "unexpected_return_type", some (pyTypeName raw)⟩])) := by
  refine ⟨run_tools_eq_flatMap tools jp fs fuel names gdf targs,
          fun name => runOneTool_split tools jp fs fuel gdf targs name, ?_⟩
  intro name t df raw h1 h2 h3 h4
  simp [runOneTool, h1, h2, h3, h4]

theorem C1_witness :
    (tools0 "t" = some unitTool ∧ gdf0 "t" = .ok () ∧
     unitTool.fn () (passedKwargs unitTool []) = .ok Val.none ∧
     to_plotly_json jp0 fs0 1 Val.none = Option.none) ∧
    runOneTool tools0 jp0 fs0 1 gdf0 [] "t"
      = ([], [⟨"t", "unexpected_return_type", some (pyTypeName Val.none)⟩]) :=
  ⟨⟨rfl, rfl, rfl, rfl⟩,
   (C1_each_tool_chart_xor_debug tools0 jp0 fs0 1 [] gdf0 []).2.2
     "t" unitTool () Val.none rfl rfl rfl rfl⟩

/-- C2: `run_tools` never propagates a tool-level failure: a raising data
provider yields the `dataframe_load_failed` Debug Entry, a raising tool
body yields the `exception` Debug Entry, the tool contributes nothing to
the results in either case, and the batch output is the in-order
concatenation of the per-tool contributions (results keep the relative
order of the succeeding tools, debug the order of the failures). -/
theorem C2_tool_failures_to_debug {Df : Type} (tools : String → Option (Tool Df))
    (jp fs : String → Option Val) (fuel : Nat) (names : List String)
    (gdf : String → Except String Df) (targs : List (String × Val)) :
    (run_tools tools jp fs fuel names gdf targs
      = (names.flatMap (fun n => (runOneTool tools jp fs fuel gdf targs n).1),
         names.flatMap (fun n => (runOneTool tools jp fs fuel gdf targs n).2))) ∧
    (∀ (name : String) (t : Tool Df) (e : String),
      tools name = some t → gdf name = .error e →
      runOneTool tools jp fs fuel gdf targs name
        = ([], [⟨name, "dataframe_load_failed: " ++ e, Option.none⟩])) ∧
    (∀ (name : String) (t : Tool Df) (df : Df) (e : String),
      tools name = some t → gdf name = .ok df →
      t.fn df (passedKwargs t targs) = .error e →
      runOneTool tools jp fs fuel gdf targs name
        = ([], [⟨name, "exception: " ++ e, Option.none⟩])) := by
  refine ⟨run_tools_eq_flatMap tools jp fs fuel names gdf targs, ?_, ?_⟩
  · intro name t e h1 h2
    simp [runOneTool, h1, h2]
  · intro name t df e h1 h2 h3
    simp [runOneTool, h1, h2, h3]

theorem C2_witness :
    (tools0 "a" = some unitTool ∧ gdfErr "a" = .error "boom" ∧
     runOneTool tools0 jp0 fs0 1 gdfErr [] "a"
       = ([], [⟨"a", "dataframe_load_failed: " ++ "boom", Option.none⟩])) ∧
    (toolsErr "b" = some toolErr ∧ gdf0 "b" = .ok () ∧
     toolErr.fn () (passedKwargs toolErr []) = .error "bad" ∧
     runOneTool toolsErr jp0 fs0 1 gdf0 [] "b"
       = ([], [⟨"b", "exception: " ++ "bad", Option.none⟩])) :=
  ⟨⟨rfl, rfl,
    (C2_tool_failures_to_debug tools0 jp0 fs0 1 [] gdfErr []).2.1 "a" unitTool "boom" rfl rfl⟩,
   ⟨rfl, rfl, rfl,
    (C2_tool_failures_to_debug toolsErr jp0 fs0 1 [] gdf0 []).2.2 "b" toolErr () "bad" rfl rfl rfl⟩⟩

/-- C7: a tool name absent from the registry contributes zero chart objects
and exactly one Debug Entry with error `not_found`, and the batch continues
with the remaining tool names. -/
theorem C7_not_found_continues {Df : Type} (tools : String → Option (Tool Df))
    (jp fs : String → Option Val) (fuel : Nat) (name : String)
    (rest : List String) (gdf : String → Except String Df)
    (targs : List (String × Val)) (h : tools name = Option.none) :
    run_tools tools jp fs fuel (name :: rest) gdf targs
      = ((run_tools tools jp fs fuel rest gdf targs).1,
         DebugEntry.mk name "not_found" Option.none
           :: (run_tools tools jp fs fuel rest gdf targs).2) := by
  rw [run_tools_eq_flatMap, run_tools_eq_flatMap]
  simp [List.flatMap_cons, runOneTool_not_found jp fs fuel gdf targs h]

theorem C7_witness :
    toolsNone "ghost" = Option.none ∧
    run_tools toolsNone jp0 fs0 1 ["ghost"] gdf0 []
      = ((run_tools toolsNone jp0 fs0 1 [] gdf0 []).1,
         DebugEntry.mk "ghost" "not_found" Option.none
           :: (run_tools toolsNone jp0 fs0 1 [] gdf0 []).2) :=
  ⟨rfl, C7_not_found_continues toolsNone jp0 fs0 1 "ghost" [] gdf0 [] rfl⟩

/-- C4: whenever the LLM path is unavailable (`geminiReady` false), raises,
or does not yield a mapping with a truthy `tool_names`, `classify` returns
the fallback Plan: `response_type` "chart", `tool_names` the at-most-2 top
ranker picks (empty when the ranker returns no match — no default tool is
substituted), and `tool_args` always the empty mapping. -/
theorem C4_classifier_fallback (index : List (String × Finset String))
    (g : Bool) (llmRaw : Except String String) (jp : String → Option Val)
    (m : String)
    (h : g = false ∨ (∃ e, llmRaw = Except.error e) ∨
      (∀ t, llmRaw = Except.ok t →
        ∀ es, safe_json jp t = Val.dict es →
          pyTruthy ((vget es "tool_names").getD Val.none) = false)) :
    classify index g llmRaw jp m
      = Val.dict [("response_type", Val.str "chart"),
          ("tool_names",
            Val.list (((rank_tools index m).take 2).map (fun p => Val.str p.1))),
          ("tool_args", Val.dict [])] ∧
    (rank_tools index m = [] →
      Val.list (((rank_tools index m).take 2).map (fun p => Val.str p.1))
        = Val.list []) := by
  have hfb : (if (rank_tools index m).isEmpty then
        Val.dict [("response_type", Val.str "chart"), ("tool_names", Val.list []),
          ("tool_args", Val.dict [])]
      else
        Val.dict [("response_type", Val.str "chart"),
          ("tool_names",
            Val.list (((rank_tools index m).take 2).map (fun p => Val.str p.1))),
          ("tool_args", Val.dict [])])
      = Val.dict [("response_type", Val.str "chart"),
          ("tool_names",
            Val.list (((rank_tools index m).take 2).map (fun p => Val.str p.1))),
          ("tool_args", Val.dict [])] := by
    cases hr : rank_tools index m with
    | nil => simp [hr]
    | cons a l => simp [hr]
  refine ⟨?_, fun hr => by rw [hr]; rfl⟩
  rcases h with hg | ⟨e, he⟩ | hok
  · subst hg
    simpa [classify] using hfb
  · subst he
    cases g <;> simpa [classify] using hfb
  · cases g with
    | false => simpa [classify] using hfb
    | true =>
      cases llmRaw with
      | error e => simpa [classify] using hfb
      | ok t =>
        cases hpt : safe_json jp t with
        | dict es =>
          have hfalse := hok t rfl es hpt
          simpa [classify, hpt, hfalse] using hfb
        | none => simpa [classify, hpt] using hfb
        | bool b => simpa [classify, hpt] using hfb
        | int n => simpa [classify, hpt] using hfb
        | str s => simpa [classify, hpt] using hfb
        | list xs => simpa [classify, hpt] using hfb
        | tuple2 a b => simpa [classify, hpt] using hfb

theorem C4_witness :
    classify [] false (Except.ok "x") jp0 ""
      = Val.dict [("response_type", Val.str "chart"),
          ("tool_names",
            Val.list (((rank_tools [] "").take 2).map (fun p => Val.str p.1))),
          ("tool_args", Val.dict [])] :=
  (C4_classifier_fallback [] false (Except.ok "x") jp0 "" (Or.inl rfl)).1

/-- The ranking as §4.2 and the claim word it: every registered tool gets
the score `float(|query tokens ∩ indexed tokens|)`, plus `0.5` when the
query contains "by" and the tool tokens contain "region"/"regions", plus
`0.5` when the query tokens meet the trend words and the tool tokens meet
them too; only strictly positive scores are kept.  Written from the claim,
to be compared with `rank_tools`. -/
def spec_ranked (index : List (String × Finset String)) (message : String) :
    List (String × ℚ) :=
  index.filterMap (fun e =>
    let s : ℚ := (((tokenSet message) ∩ e.2).card : ℚ)
      + (if "by" ∈ tokenSet message ∧
            ({"region", "regions"} : Finset String) ∩ e.2 ≠ ∅ then 1/2 else 0)
      + (if ({"trend", "monthly", "mo", "month"} : Finset String) ∩ tokenSet message ≠ ∅ ∧
            ({"trend", "month"} : Finset String) ∩ e.2 ≠ ∅ then 1/2 else 0)
    if 0 < s then some (e.1, s) else Option.none)

/-- C6: `rank_tools` returns exactly the registered tools whose claimed
score (token-overlap size plus the two at-most-once `0.5` boosts) is
strictly positive, each paired with that score, sorted by descending
score. -/
theorem C6_ranker_scores_and_sorts (index : List (String × Finset String))
    (message : String) :
    (rank_tools index message).Perm (spec_ranked index message) ∧
    (rank_tools index message).Pairwise (fun a b => b.2 ≤ a.2) := by
  have hr : rank_tools index message = sortScoresDesc (spec_ranked index message) := by
    unfold rank_tools spec_ranked
    dsimp only
    congr 1
    apply List.filterMap_congr
    intro e he
    simp only [rankScore_eq]
  exact ⟨hr ▸ sortScoresDesc_perm _, hr ▸ sortScoresDesc_pairwise _⟩

/-- C5: the facade's merged filter set (`final_filters` in `run_query`,
computed by `dictMerge (derive_filters tool_args) filters`) looks up every
key as: the explicit caller filter when present (explicit wins), else the
Plan-derived entry when the key is one of the five allowed filter keys,
else nothing — so non-conflicting keys of both sides are retained. -/
theorem C5_merge_explicit_wins (tool_args filters : List (String × Val))
    (k : String) :
    vget (dictMerge (derive_filters tool_args) filters) k
      = (vget filters k).or
          (if k ∈ ALLOWED_FILTERS then vget tool_args k else Option.none) := by
  rw [vget_dictMerge, vget_derive_filters]

/-- C3: whenever execution produces an empty result batch, `run_query`
returns the guardrail error response — the fixed message listing the five
supported filter keys and the example queries — not an exception, a
generic failure, or any further ranked-tool fallback. -/
theorem C3_guardrail_on_empty {Df : Type} (tools : String → Option (Tool Df))
    (index : List (String × Finset String)) (g : Bool)
    (llmRaw : Except String String) (jp fs : String → Option Val) (fuel : Nat)
    (loader : String → List (String × Val) → Except String Df)
    (mk : Option QueryResponse) (message : String)
    (filters : Option (List (String × Val)))
    (h : (run_query_exec tools index g llmRaw jp fs fuel loader message filters).1 = []) :
    run_query tools index g llmRaw jp fs fuel loader mk message filters
      = guardrail_message := by
  simp [run_query, h]

theorem C3_witness :
    (run_query_exec toolsNone [] false (Except.ok "") jp0 fs0 1 loader0 "q"
        Option.none).1 = [] ∧
    run_query toolsNone [] false (Except.ok "") jp0 fs0 1 loader0 Option.none "q"
        Option.none = guardrail_message :=
  ⟨rfl, C3_guardrail_on_empty toolsNone [] false (Except.ok "") jp0 fs0 1 loader0
    Option.none "q" Option.none rfl⟩

/-- C9: the facade's response never depends on the static-mock directory
(the mock branch is unreachable), an empty result batch always yields the
guardrail response immediately, and the generic no-results message is never
returned to the caller. -/
theorem C9_dead_branches {Df : Type} (tools : String → Option (Tool Df))
    (index : List (String × Finset String)) (g : Bool)
    (llmRaw : Except String String) (jp fs : String → Option Val) (fuel : Nat)
    (loader : String → List (String × Val) → Except String Df)
    (m1 m2 : Option QueryResponse) (message : String)
    (filters : Option (List (String × Val))) :
    run_query tools index g llmRaw jp fs fuel loader m1 message filters
      = run_query tools index g llmRaw jp fs fuel loader m2 message filters ∧
    ((run_query_exec tools index g llmRaw jp fs fuel loader message filters).1 = [] →
      run_query tools index g llmRaw jp fs fuel loader m1 message filters
        = guardrail_message) ∧
    run_query tools index g llmRaw jp fs fuel loader m1 message filters
      ≠ QueryResponse.error no_results_message := by
  refine ⟨?_, ?_, ?_⟩
  · cases hres : (run_query_exec tools index g llmRaw jp fs fuel loader message filters).1 with
    | nil => simp [run_query, hres]
    | cons a l => simp [run_query, hres]
  · intro h
    simp [run_query, h]
  · cases hres : (run_query_exec tools index g llmRaw jp fs fuel loader message filters).1 with
    | nil =>
      simp only [run_query, hres, List.isEmpty_nil, if_true]
      intro hcontra
      unfold guardrail_message at hcontra
      injection hcontra with hs
      exact absurd hs (by decide)
    | cons a l =>
      simp only [run_query, hres, List.isEmpty_cons, Bool.false_eq_true, if_false]
      cases hmap : (a :: l).mapM toPlotlyObject with
      | ok objs => simp [hmap]
      | error e =>
        simp only [hmap, ne_eq, QueryResponse.error.injEq]
        exact error_prefix_ne_generic e

theorem C9_witness :
    (run_query_exec toolsNone [] false (Except.ok "") jp0 fs0 1 loader0 "r"
        Option.none).1 = [] ∧
    run_query toolsNone [] false (Except.ok "") jp0 fs0 1 loader0
        (some (QueryResponse.error "mock")) "r" Option.none = guardrail_message :=
  ⟨rfl, (C9_dead_branches toolsNone [] false (Except.ok "") jp0 fs0 1 loader0
    (some (QueryResponse.error "mock")) Option.none "r" Option.none).2.1 rfl⟩
